import Mathlib

/-!
Shallow embedding of the financial-health analysis engine in `app.py`
(class `FinancialHealthAnalyzer`).  Python floats are modelled as
rationals; the dictionaries built by the code are modelled as records
or as ordered lists of key/value pairs.
-/

/-- The validated input record: the 23 fields the HTTP layer coerces
before invoking the core (see the required-field list in `app.py`). -/
structure FinancialProfile where
  age : ℤ
  salary : ℚ
  city_index : ℚ
  assets : ℚ
  liabilities : ℚ
  savings : ℚ
  investments : ℚ
  monthly_expenses : ℚ
  emi : ℚ
  loans : ℤ
  responsibilities : ℤ
  credit_score : ℤ
  risk_tolerance : ℚ
  high_risk_percent : ℤ
  confidence : ℤ
  defaulted : Bool
  budget : Bool
  automate : Bool
  retirement : Bool
  advisor : Bool
  review_goals : Bool
  expense_tracking : String
  insurance : String
deriving DecidableEq

/-- Embeds `_calculate_age_factor`: age-based risk capacity step function. -/
def calculate_age_factor (age : ℤ) : ℚ :=
  if age < 25 then (9/10)
  else if age < 35 then (8/10)
  else if age < 45 then (6/10)
  else if age < 55 then (4/10)
  else (2/10)

/-- Embeds `_calculate_income_stability`: income relative to city cost, with a
zero guard on `city_index`. -/
def calculate_income_stability (salary city_index : ℚ) : ℚ :=
  if city_index = 0 then 0
  else
    let adjusted_income := salary / (city_index * 100000)
    min 1 (adjusted_income / 10)

/-- Embeds `_calculate_net_worth_ratio`: net worth as a multiple of annual
salary, clamped to [0,1] after dividing by 5. -/
def calculate_net_worth_ratio (assets liabilities salary : ℚ) : ℚ :=
  if salary = 0 then 0
  else
    let net_worth_multiple := (assets - liabilities) / salary
    min 1 (max 0 (net_worth_multiple / 5))

/-- Embeds `_calculate_debt_burden`: total debt burden ratio, 1 when there is
no income. -/
def calculate_debt_burden (emi liabilities salary : ℚ) : ℚ :=
  if salary = 0 then 1
  else
    let total_debt_ratio := (emi + liabilities * (1/10)) / salary
    min 1 total_debt_ratio

/-- Embeds `_calculate_liquidity_score`: emergency fund adequacy with a neutral
(5/10) when there are no expenses. -/
def calculate_liquidity_score (savings monthly_expenses : ℚ) : ℚ :=
  if monthly_expenses = 0 then (5/10)
  else
    let emergency_months := savings / monthly_expenses
    if 12 ≤ emergency_months then 1
    else if 6 ≤ emergency_months then (8/10)
    else if 3 ≤ emergency_months then (6/10)
    else min 1 (emergency_months / 6)

/-- Embeds `_calculate_credit_health`: default penalty times credit-score tier. -/
def calculate_credit_health (credit_score : ℤ) (defaulted : Bool) : ℚ :=
  let base_score : ℚ := if defaulted then (3/10) else 1
  let credit_factor : ℚ :=
    if 750 ≤ credit_score then 1
    else if 650 ≤ credit_score then (7/10)
    else if 550 ≤ credit_score then (4/10)
    else (1/10)
  base_score * credit_factor

/-- Embeds `_calculate_investment_maturity`: investments as a share of assets. -/
def calculate_investment_maturity (investments assets : ℚ) : ℚ :=
  if assets = 0 then 0
  else min 1 (investments / assets)

/-- Embeds `_calculate_behavioral_score`: eight boolean habit checks, averaged. -/
def calculate_behavioral_score (data : FinancialProfile) : ℚ :=
  let score : ℕ :=
    (if data.budget then 1 else 0) +
    (if data.expense_tracking = "Monthly" ∨ data.expense_tracking = "Daily" then 1 else 0) +
    (if data.insurance = "Health" ∨ data.insurance = "Life" ∨ data.insurance = "Both" then 1 else 0) +
    (if data.retirement then 1 else 0) +
    (if data.automate then 1 else 0) +
    (if ¬ data.defaulted then 1 else 0) +
    (if 7 ≤ data.confidence then 1 else 0) +
    (if data.review_goals then 1 else 0)
  (score : ℚ) / 8

/-- Embeds `calculate_comprehensive_risk_score`: weighted aggregate (clamped to
[0,100]) together with the per-factor breakdown, in the insertion order
of the Python dict. -/
def calculate_comprehensive_risk_score (data : FinancialProfile) :
    ℚ × List (String × ℚ) :=
  let age_factor := calculate_age_factor data.age
  let income_stability := calculate_income_stability data.salary data.city_index
  let net_worth_ratio := calculate_net_worth_ratio data.assets data.liabilities data.salary
  let debt_burden := calculate_debt_burden data.emi data.liabilities data.salary
  let liquidity_score := calculate_liquidity_score data.savings data.monthly_expenses
  let credit_health := calculate_credit_health data.credit_score data.defaulted
  let investment_maturity := calculate_investment_maturity data.investments data.assets
  let behavioral_score := calculate_behavioral_score data
  let risk_score :=
    (age_factor * (15/100) +
     income_stability * (20/100) +
     net_worth_ratio * (15/100) +
     (1 - debt_burden) * (20/100) +
     liquidity_score * (10/100) +
     credit_health * (10/100) +
     investment_maturity * (5/100) +
     behavioral_score * (5/100) +
     data.risk_tolerance * (1/10)) * 100
  let breakdown : List (String × ℚ) :=
    [("Age Factor", age_factor * 100),
     ("Income Stability", income_stability * 100),
     ("Net Worth Ratio", net_worth_ratio * 100),
     ("Debt Management", (1 - debt_burden) * 100),
     ("Liquidity Position", liquidity_score * 100),
     ("Credit Health", credit_health * 100),
     ("Investment Maturity", investment_maturity * 100),
     ("Financial Behavior", behavioral_score * 100),
     ("Risk Tolerance", data.risk_tolerance * 100)]
  (max 0 (min 100 risk_score), breakdown)


/-- One of the five static investor-profile records returned by
`interpret_risk_profile`. -/
structure InvestorProfile where
  profile : String
  capacity : String
  description : String
  allocation : String
  investment_horizon : String
deriving DecidableEq

/-- The static record of the [80,100] band. -/
def aggressiveInvestor : InvestorProfile :=
  { profile := "Aggressive Investor"
    capacity := "Very High"
    description := "Strong financial foundation with high risk-taking ability"
    allocation := "Equity: 70-80%, Bonds: 10-15%, Alternatives: 10-15%"
    investment_horizon := "15+ years" }

/-- The static record of the [65,80) band. -/
def growthInvestor : InvestorProfile :=
  { profile := "Growth Investor"
    capacity := "High"
    description := "Good financial position suitable for growth-oriented investments"
    allocation := "Equity: 60-70%, Bonds: 20-25%, Alternatives: 10-15%"
    investment_horizon := "10-15 years" }

/-- The static record of the [45,65) band. -/
def balancedInvestor : InvestorProfile :=
  { profile := "Balanced Investor"
    capacity := "Moderate"
    description := "Stable finances with moderate risk appetite"
    allocation := "Equity: 40-50%, Bonds: 30-40%, Alternatives: 10-20%"
    investment_horizon := "7-10 years" }

/-- The static record of the [25,45) band. -/
def conservativeInvestor : InvestorProfile :=
  { profile := "Conservative Investor"
    capacity := "Low"
    description := "Limited risk capacity, focus on stability"
    allocation := "Equity: 20-30%, Bonds: 50-60%, Cash: 20-30%"
    investment_horizon := "3-7 years" }

/-- The static record of the band below 25. -/
def capitalPreservation : InvestorProfile :=
  { profile := "Capital Preservation"
    capacity := "Very Low"
    description := "Priority should be financial stability and emergency planning"
    allocation := "Bonds: 40-50%, Cash/FD: 40-50%, Equity: 0-10%"
    investment_horizon := "1-3 years" }

/-- Embeds `interpret_risk_profile`: band lookup on the aggregate score. -/
def interpret_risk_profile (risk_score : ℚ) : InvestorProfile :=
  if 80 ≤ risk_score then aggressiveInvestor
  else if 65 ≤ risk_score then growthInvestor
  else if 45 ≤ risk_score then balancedInvestor
  else if 25 ≤ risk_score then conservativeInvestor
  else capitalPreservation

/-- The dict built by `calculate_key_ratios`, as a record. -/
structure Ratios where
  debt_to_income : ℚ
  savings_rate : ℚ
  emergency_fund_months : ℚ
  investment_rate : ℚ
  net_worth : ℚ
  asset_utilization : ℚ
  expense_ratio : ℚ
deriving DecidableEq

/-- Embeds `calculate_key_ratios`: the seven derived ratios with zero-denominator
guards. -/
def calculate_key_ratios (data : FinancialProfile) : Ratios :=
  { debt_to_income :=
      if 0 < data.salary then (data.emi + data.liabilities * (1/10)) / data.salary else 0
    savings_rate :=
      if 0 < data.salary then data.savings / data.salary else 0
    emergency_fund_months :=
      if 0 < data.monthly_expenses then data.savings / data.monthly_expenses else 0
    investment_rate :=
      if 0 < data.salary then data.investments / data.salary else 0
    net_worth := data.assets - data.liabilities
    asset_utilization :=
      if 0 < data.assets then data.investments / data.assets else 0
    expense_ratio :=
      if 0 < data.salary then (data.monthly_expenses * 12) / data.salary else 0 }

/-- The insertion order of the `calculate_key_ratios` dict. -/
def ratiosList (r : Ratios) : List (String × ℚ) :=
  [("debt_to_income", r.debt_to_income),
   ("savings_rate", r.savings_rate),
   ("emergency_fund_months", r.emergency_fund_months),
   ("investment_rate", r.investment_rate),
   ("net_worth", r.net_worth),
   ("asset_utilization", r.asset_utilization),
   ("expense_ratio", r.expense_ratio)]

/-- The nine recommendation messages of `generate_recommendations`; the
three parameterised constructors carry the ratio value interpolated into
the message text. -/
inductive Recommendation where
  | buildEmergencyFund (months : ℚ)
  | reduceDebtBurden (debt_to_income : ℚ)
  | increaseSavings (savings_rate : ℚ)
  | increaseInvestments
  | getInsurance
  | improveCreditScore
  | createBudget
  | automateFinances
  | startRetirementPlanning
deriving DecidableEq

/-- Embeds `generate_recommendations`: threshold-gated messages in fixed order. -/
def generate_recommendations (data : FinancialProfile) (risk_score : ℚ)
    (ratios : Ratios) : List Recommendation :=
  (if ratios.emergency_fund_months < 6 then
    [Recommendation.buildEmergencyFund ratios.emergency_fund_months] else []) ++
  (if (4/10) < ratios.debt_to_income then
    [Recommendation.reduceDebtBurden ratios.debt_to_income] else []) ++
  (if ratios.savings_rate < (2/10) then
    [Recommendation.increaseSavings ratios.savings_rate] else []) ++
  (if ratios.investment_rate < (15/100) ∧ 40 < risk_score then
    [Recommendation.increaseInvestments] else []) ++
  (if data.insurance = "None" then [Recommendation.getInsurance] else []) ++
  (if data.credit_score < 650 then [Recommendation.improveCreditScore] else []) ++
  (if ¬ data.budget then [Recommendation.createBudget] else []) ++
  (if ¬ data.automate then [Recommendation.automateFinances] else []) ++
  (if data.age < 30 ∧ ¬ data.retirement then
    [Recommendation.startRetirementPlanning] else [])

/-- The five warning messages of `generate_warnings`. -/
inductive Warning where
  | criticalDebt
  | noEmergencyFund
  | veryPoorCredit
  | unsustainableExpenses
  | priorDefaults
deriving DecidableEq

/-- Embeds `generate_warnings`: threshold-gated warnings in fixed order. -/
def generate_warnings (data : FinancialProfile) (ratios : Ratios) :
    List Warning :=
  (if (5/10) < ratios.debt_to_income then [Warning.criticalDebt] else []) ++
  (if ratios.emergency_fund_months < 1 then [Warning.noEmergencyFund] else []) ++
  (if data.credit_score < 500 then [Warning.veryPoorCredit] else []) ++
  (if (9/10) < ratios.expense_ratio then [Warning.unsustainableExpenses] else []) ++
  (if data.defaulted ∧ 0 < data.loans then [Warning.priorDefaults] else [])

/-- Round-half-even on rationals: the rounding used by Python float
formatting, at exact rational precision. -/
def roundHalfEven (q : ℚ) : ℤ :=
  let f := ⌊q⌋
  let r := q - (f : ℚ)
  if r < 1/2 then f
  else if (1:ℚ)/2 < r then f + 1
  else if f % 2 = 0 then f else f + 1

/-- Two-digit zero padding for the fractional part of a decimal. -/
def pad2 (n : ℕ) : String := if n < 10 then "0" ++ toString n else toString n

/-- Insert a comma after every three characters of a reversed digit list. -/
def commaGroupAux : List Char → List Char
  | a :: b :: c :: d :: rest => a :: b :: c :: ',' :: commaGroupAux (d :: rest)
  | l => l

/-- Comma-group a natural number in threes, as Python does with a comma
format spec. -/
def commaGroup (n : ℕ) : String :=
  String.mk ((commaGroupAux (toString n).toList.reverse).reverse)

/-- Render a rational with exactly two decimal places, as a .2f format
spec does. -/
def twoDec (q : ℚ) : String :=
  let n := roundHalfEven (q * 100)
  let s := if n < 0 then "-" else ""
  let a := n.natAbs
  s ++ toString (a / 100) ++ "." ++ pad2 (a % 100)

/-- Render a rational with exactly one decimal place, as a .1f format
spec does. -/
def oneDec (q : ℚ) : String :=
  let n := roundHalfEven (q * 10)
  let s := if n < 0 then "-" else ""
  let a := n.natAbs
  s ++ toString (a / 10) ++ "." ++ toString (a % 10)

/-- Render a rational as a comma-grouped integer, as a ,.0f format spec
does. -/
def intComma (q : ℚ) : String :=
  let n := roundHalfEven q
  (if n < 0 then "-" else "") ++ commaGroup n.natAbs

/-- Render a fraction as a one-decimal percentage, as a .1% format spec
does. -/
def percent1 (v : ℚ) : String := oneDec (v * 100) ++ "%"

/-- Embeds `format_currency`: Indian-format currency string with crore and lakh
suffixes. -/
def format_currency (amount : ℚ) : String :=
  if 10000000 ≤ amount then "₹" ++ twoDec (amount / 10000000) ++ " Cr"
  else if 100000 ≤ amount then "₹" ++ twoDec (amount / 100000) ++ " L"
  else "₹" ++ intComma amount


/-- Boolean list-prefix test used by the substring test below. -/
def listPrefixB : List Char → List Char → Bool
  | [], _ => true
  | _ :: _, [] => false
  | a :: as, b :: bs => a = b && listPrefixB as bs

/-- Boolean list-infix test used by the substring test below. -/
def listInfixB (p : List Char) : List Char → Bool
  | [] => listPrefixB p []
  | b :: bs => listPrefixB p (b :: bs) || listInfixB p bs

/-- Membership test of a pattern inside a string, the Python `in`
operator on strings. -/
def containsSub (s pat : String) : Bool := listInfixB pat.toList s.toList

/-- A value of the heterogeneous formatted-ratios dict: either a display
string or a number passed through unformatted. -/
inductive FormattedValue where
  | fstr (s : String)
  | fnum (v : ℚ)
deriving DecidableEq

/-- The per-entry formatter of the `formatted_ratios` comprehension in
`get_full_report_data`: keys containing "rate" or "ratio" become
one-decimal percentages, `emergency_fund_months` becomes a months
string, keys containing "worth" go through the currency formatter, and
everything else passes through as a raw number. -/
def formatRatioValue (k : String) (v : ℚ) : FormattedValue :=
  if containsSub k "rate" || containsSub k "ratio" then .fstr (percent1 v)
  else if k = "emergency_fund_months" then .fstr (oneDec v ++ " months")
  else if containsSub k "worth" then .fstr (format_currency v)
  else .fnum v

/-- The whole `formatted_ratios` dict, in insertion order. -/
def formattedRatios (r : Ratios) : List (String × FormattedValue) :=
  (ratiosList r).map (fun kv => (kv.1, formatRatioValue kv.1 kv.2))

/-- Action item: open a savings account for the emergency fund. -/
def actOpenSavings : String :=
  "Open a high-yield savings account and set up automatic transfer for emergency fund"

/-- Action item: track all expenses with a budgeting app. -/
def actTrackExpenses : String :=
  "Download a budgeting app and track all expenses for 30 days"

/-- Action item: research insurance plans. -/
def actResearchInsurance : String :=
  "Research and compare health insurance plans, get quotes for term life insurance"

/-- Action item: obtain a credit report. -/
def actCreditReport : String :=
  "Obtain free credit report, dispute any errors, and set up payment reminders"

/-- Action item: automate payments and investing. -/
def actAutomate : String :=
  "Set up automatic bill payments and SIP investments"

/-- Action item: plan debt consolidation. -/
def actDebtPlan : String :=
  "List all debts, consider debt consolidation options, create repayment plan"

/-- Unconditional action item appended first. -/
def actReviewPortfolio : String :=
  "Review and optimize current investment portfolio based on risk profile"

/-- Unconditional action item appended last. -/
def actScheduleReview : String :=
  "Schedule financial goal review and create/update investment strategy"

/-- The action list of `_generate_action_plan` before the final
truncation. -/
def actionItems (data : FinancialProfile) (ratios : Ratios) : List String :=
  (if ratios.emergency_fund_months < 3 then [actOpenSavings] else []) ++
  (if ¬ data.budget then [actTrackExpenses] else []) ++
  (if data.insurance = "None" then [actResearchInsurance] else []) ++
  (if data.credit_score < 650 then [actCreditReport] else []) ++
  (if ¬ data.automate then [actAutomate] else []) ++
  (if (4/10) < ratios.debt_to_income then [actDebtPlan] else []) ++
  [actReviewPortfolio, actScheduleReview]

/-- Embeds `_generate_action_plan`: the ordered action list truncated to its
first 6 items.  The `risk_score` argument is received and ignored, as in
the source. -/
def generate_action_plan (data : FinancialProfile) (ratios : Ratios)
    (risk_score : ℚ) : List String :=
  let _ := risk_score
  (actionItems data ratios).take 6

/-- How many of the six conditional action-plan rules fire. -/
def firedActionRules (data : FinancialProfile) (ratios : Ratios) : ℕ :=
  (if ratios.emergency_fund_months < 3 then 1 else 0) +
  (if ¬ data.budget then 1 else 0) +
  (if data.insurance = "None" then 1 else 0) +
  (if data.credit_score < 650 then 1 else 0) +
  (if ¬ data.automate then 1 else 0) +
  (if (4/10) < ratios.debt_to_income then 1 else 0)

/-- The nested response dict of `get_full_report_data`, flattened into a
record; the `risk_assessment` sub-dict becomes the five fields after
`age`. -/
structure Report where
  generated_on : String
  age : ℤ
  overall_risk_score : String
  risk_profile : String
  capacity : String
  description : String
  investment_horizon : String
  suggested_allocation : String
  score_breakdown : List (String × String)
  financial_snapshot : List (String × String)
  key_financial_ratios : List (String × FormattedValue)
  financial_behavior_analysis : List (String × String)
  urgent_attention_required : List Warning
  personalized_recommendations : List Recommendation
  thirty_day_action_plan : List String
deriving DecidableEq

/-- Embeds `get_full_report_data`: the full pipeline.  The `clock` argument
models the `datetime.now()` reading already formatted by `strftime`; the
core treats it as an opaque string. -/
def get_full_report_data (clock : String) (data : FinancialProfile) : Report :=
  let rs := calculate_comprehensive_risk_score data
  let risk_score := rs.1
  let breakdown := rs.2
  let risk_profile := interpret_risk_profile risk_score
  let ratios := calculate_key_ratios data
  let recommendations := generate_recommendations data risk_score ratios
  let warnings := generate_warnings data ratios
  let action_items := generate_action_plan data ratios risk_score
  { generated_on := clock
    age := data.age
    overall_risk_score := oneDec risk_score ++ "/100"
    risk_profile := risk_profile.profile
    capacity := risk_profile.capacity
    description := risk_profile.description
    investment_horizon := risk_profile.investment_horizon
    suggested_allocation := risk_profile.allocation
    score_breakdown := breakdown.map (fun kv => (kv.1, oneDec kv.2 ++ "/100"))
    financial_snapshot :=
      [("annual_income", format_currency data.salary),
       ("total_assets", format_currency data.assets),
       ("total_liabilities", format_currency data.liabilities),
       ("net_worth", format_currency ratios.net_worth),
       ("liquid_savings", format_currency data.savings),
       ("investments", format_currency data.investments)]
    key_financial_ratios := formattedRatios ratios
    financial_behavior_analysis :=
      [("monthly_budgeting", if data.budget then "Yes" else "No"),
       ("expense_tracking", data.expense_tracking),
       ("insurance_coverage", data.insurance),
       ("retirement_planning", if data.retirement then "Yes" else "No"),
       ("investment_automation", if data.automate then "Yes" else "No"),
       ("credit_score", toString data.credit_score ++ "/850"),
       ("financial_confidence", toString data.confidence ++ "/10"),
       ("goal_review_habit", if data.review_goals then "Yes" else "No"),
       ("financial_advisor", if data.advisor then "Yes" else "No")]
    urgent_attention_required := warnings
    personalized_recommendations := recommendations
    thirty_day_action_plan := action_items }

/-- The three instance fields `__init__` creates on
`FinancialHealthAnalyzer`.  No method of the class ever reads or assigns
them after construction. -/
structure AnalyzerState where
  report_data : List (String × String)
  recommendations : List Recommendation
  warnings : List Warning
deriving DecidableEq

/-- The state `__init__` installs: all three fields empty. -/
def analyzerInit : AnalyzerState :=
  { report_data := [], recommendations := [], warnings := [] }

/-- Embeds `get_full_report_data` as a state-passing computation on the analyzer
instance.  Since no method reads or writes the instance fields, the
state threads through untouched and the result is computed from the
arguments alone. -/
def get_full_report_data_stateful (st : AnalyzerState) (clock : String)
    (data : FinancialProfile) : Report × AnalyzerState :=
  (get_full_report_data clock data, st)

/-- Ascending rank of the five investor-profile bands, read off the
profile name of a classifier result. -/
def bandRank (p : InvestorProfile) : ℕ :=
  if p.profile = "Aggressive Investor" then 4
  else if p.profile = "Growth Investor" then 3
  else if p.profile = "Balanced Investor" then 2
  else if p.profile = "Conservative Investor" then 1
  else 0

/-- The end-to-end example profile of the specification. -/
def exampleProfile : FinancialProfile :=
  { age := 28, salary := 1200000, city_index := 3/2, assets := 500000,
    liabilities := 100000, savings := 200000, investments := 50000,
    monthly_expenses := 30000, emi := 5000, loans := 1,
    responsibilities := 1, credit_score := 720, risk_tolerance := 6/10,
    high_risk_percent := 20, confidence := 8, defaulted := false,
    budget := true, automate := true, retirement := false,
    advisor := false, review_goals := true,
    expense_tracking := "Monthly", insurance := "Health" }

/-- A profile with every monetary denominator equal to zero. -/
def zeroProfile : FinancialProfile :=
  { age := 40, salary := 0, city_index := 0, assets := 0,
    liabilities := 0, savings := 0, investments := 0,
    monthly_expenses := 0, emi := 0, loans := 0,
    responsibilities := 0, credit_score := 600, risk_tolerance := 0,
    high_risk_percent := 0, confidence := 5, defaulted := false,
    budget := false, automate := false, retirement := false,
    advisor := false, review_goals := false,
    expense_tracking := "Never", insurance := "None" }

/-- A profile that makes every conditional action-plan rule fire. -/
def fireAllProfile : FinancialProfile :=
  { age := 40, salary := 10000, city_index := 1, assets := 0,
    liabilities := 100000, savings := 0, investments := 0,
    monthly_expenses := 5000, emi := 2000, loans := 2,
    responsibilities := 1, credit_score := 300, risk_tolerance := 0,
    high_risk_percent := 0, confidence := 2, defaulted := true,
    budget := false, automate := false, retirement := false,
    advisor := false, review_goals := false,
    expense_tracking := "Never", insurance := "None" }

/-- A ratio table that trips both ratio-gated action-plan rules. -/
def fireAllRatios : Ratios :=
  { debt_to_income := 1, savings_rate := 0, emergency_fund_months := 0,
    investment_rate := 0, net_worth := 0, asset_utilization := 0,
    expense_ratio := 2 }

lemma age_factor_bounds (age : ℤ) :
    0 ≤ calculate_age_factor age ∧ calculate_age_factor age ≤ 1 := by
  unfold calculate_age_factor
  split_ifs <;> norm_num

lemma income_stability_bounds (salary city_index : ℚ)
    (hs : 0 ≤ salary) (hc : 0 ≤ city_index) :
    0 ≤ calculate_income_stability salary city_index ∧
      calculate_income_stability salary city_index ≤ 1 := by
  unfold calculate_income_stability
  split_ifs with h
  · norm_num
  · have hc0 : 0 < city_index := lt_of_le_of_ne hc (Ne.symm h)
    refine ⟨le_min (by norm_num) (by positivity), min_le_left _ _⟩

lemma net_worth_ratio_bounds (assets liabilities salary : ℚ) :
    0 ≤ calculate_net_worth_ratio assets liabilities salary ∧
      calculate_net_worth_ratio assets liabilities salary ≤ 1 := by
  unfold calculate_net_worth_ratio
  split_ifs with h
  · norm_num
  · exact ⟨le_min (by norm_num) (le_max_left _ _), min_le_left _ _⟩

lemma debt_burden_bounds (emi liabilities salary : ℚ)
    (hemi : 0 ≤ emi) (hliab : 0 ≤ liabilities) (hs : 0 ≤ salary) :
    0 ≤ calculate_debt_burden emi liabilities salary ∧
      calculate_debt_burden emi liabilities salary ≤ 1 := by
  unfold calculate_debt_burden
  split_ifs with h
  · norm_num
  · have hs0 : 0 < salary := lt_of_le_of_ne hs (Ne.symm h)
    refine ⟨le_min (by norm_num) (by positivity), min_le_left _ _⟩

lemma liquidity_score_bounds (savings monthly_expenses : ℚ)
    (hsav : 0 ≤ savings) (hme : 0 ≤ monthly_expenses) :
    0 ≤ calculate_liquidity_score savings monthly_expenses ∧
      calculate_liquidity_score savings monthly_expenses ≤ 1 := by
  unfold calculate_liquidity_score
  split_ifs with h
  · norm_num
  · have hme0 : 0 < monthly_expenses := lt_of_le_of_ne hme (Ne.symm h)
    dsimp only
    split_ifs with h1 h2 h3
    · norm_num
    · norm_num
    · norm_num
    · refine ⟨le_min (by norm_num) (by positivity), min_le_left _ _⟩

lemma credit_health_bounds (credit_score : ℤ) (defaulted : Bool) :
    0 ≤ calculate_credit_health credit_score defaulted ∧
      calculate_credit_health credit_score defaulted ≤ 1 := by
  unfold calculate_credit_health
  split_ifs <;> norm_num

lemma investment_maturity_bounds (investments assets : ℚ)
    (hinv : 0 ≤ investments) (hassets : 0 ≤ assets) :
    0 ≤ calculate_investment_maturity investments assets ∧
      calculate_investment_maturity investments assets ≤ 1 := by
  unfold calculate_investment_maturity
  split_ifs with h
  · norm_num
  · have ha0 : 0 < assets := lt_of_le_of_ne hassets (Ne.symm h)
    refine ⟨le_min (by norm_num) (by positivity), min_le_left _ _⟩

lemma behavioral_score_bounds (data : FinancialProfile) :
    0 ≤ calculate_behavioral_score data ∧
      calculate_behavioral_score data ≤ 1 := by
  unfold calculate_behavioral_score
  constructor
  · positivity
  · rw [div_le_one (by norm_num)]
    have h8 : ((8:ℕ) : ℚ) = 8 := by norm_num
    rw [← h8, Nat.cast_le]
    split_ifs <;> norm_num

lemma risk_score_clamped (data : FinancialProfile) :
    0 ≤ (calculate_comprehensive_risk_score data).1 ∧
      (calculate_comprehensive_risk_score data).1 ≤ 100 := by
  unfold calculate_comprehensive_risk_score
  exact ⟨le_max_left _ _, max_le (by norm_num) (min_le_left _ _)⟩

/-- C1: for every profile whose monetary fields and indices are
non-negative and whose risk tolerance lies in [0,1], each of the eight
normalized factor functions returns a value in [0,1], and the aggregate
score returned by `calculate_comprehensive_risk_score` lies in
[0,100]. -/
theorem c1_factors_unit_interval_score_clamped (data : FinancialProfile)
    (hsal : 0 ≤ data.salary) (hci : 0 ≤ data.city_index)
    (hassets : 0 ≤ data.assets) (hliab : 0 ≤ data.liabilities)
    (hsav : 0 ≤ data.savings) (hinv : 0 ≤ data.investments)
    (hme : 0 ≤ data.monthly_expenses) (hemi : 0 ≤ data.emi)
    (hrt0 : 0 ≤ data.risk_tolerance) (hrt1 : data.risk_tolerance ≤ 1) :
    (0 ≤ calculate_age_factor data.age ∧ calculate_age_factor data.age ≤ 1) ∧
    (0 ≤ calculate_income_stability data.salary data.city_index ∧
      calculate_income_stability data.salary data.city_index ≤ 1) ∧
    (0 ≤ calculate_net_worth_ratio data.assets data.liabilities data.salary ∧
      calculate_net_worth_ratio data.assets data.liabilities data.salary ≤ 1) ∧
    (0 ≤ calculate_debt_burden data.emi data.liabilities data.salary ∧
      calculate_debt_burden data.emi data.liabilities data.salary ≤ 1) ∧
    (0 ≤ calculate_liquidity_score data.savings data.monthly_expenses ∧
      calculate_liquidity_score data.savings data.monthly_expenses ≤ 1) ∧
    (0 ≤ calculate_credit_health data.credit_score data.defaulted ∧
      calculate_credit_health data.credit_score data.defaulted ≤ 1) ∧
    (0 ≤ calculate_investment_maturity data.investments data.assets ∧
      calculate_investment_maturity data.investments data.assets ≤ 1) ∧
    (0 ≤ calculate_behavioral_score data ∧
      calculate_behavioral_score data ≤ 1) ∧
    (0 ≤ (calculate_comprehensive_risk_score data).1 ∧
      (calculate_comprehensive_risk_score data).1 ≤ 100) :=
  ⟨age_factor_bounds data.age,
   income_stability_bounds data.salary data.city_index hsal hci,
   net_worth_ratio_bounds data.assets data.liabilities data.salary,
   debt_burden_bounds data.emi data.liabilities data.salary hemi hliab hsal,
   liquidity_score_bounds data.savings data.monthly_expenses hsav hme,
   credit_health_bounds data.credit_score data.defaulted,
   investment_maturity_bounds data.investments data.assets hinv hassets,
   behavioral_score_bounds data,
   risk_score_clamped data⟩

/-- Witness for C1 at the end-to-end example profile. -/
theorem c1_witness :
    0 ≤ (calculate_comprehensive_risk_score exampleProfile).1 ∧
      (calculate_comprehensive_risk_score exampleProfile).1 ≤ 100 :=
  (c1_factors_unit_interval_score_clamped exampleProfile
    (by norm_num [exampleProfile]) (by norm_num [exampleProfile])
    (by norm_num [exampleProfile]) (by norm_num [exampleProfile])
    (by norm_num [exampleProfile]) (by norm_num [exampleProfile])
    (by norm_num [exampleProfile]) (by norm_num [exampleProfile])
    (by norm_num [exampleProfile]) (by norm_num [exampleProfile])).2.2.2.2.2.2.2.2

/-- C2: the aggregate score equals the clamped weighted sum of the nine
factors with the fixed weights, and the breakdown dict reports each
factor pre-weighting as its own normalized value times 100, with the
Debt Management entry inverted. -/
theorem c2_aggregate_formula_and_breakdown (data : FinancialProfile) :
    (calculate_comprehensive_risk_score data).1 =
      max 0 (min 100
        (((15/100) * calculate_age_factor data.age +
          (20/100) * calculate_income_stability data.salary data.city_index +
          (15/100) * calculate_net_worth_ratio data.assets data.liabilities data.salary +
          (20/100) * (1 - calculate_debt_burden data.emi data.liabilities data.salary) +
          (10/100) * calculate_liquidity_score data.savings data.monthly_expenses +
          (10/100) * calculate_credit_health data.credit_score data.defaulted +
          (5/100) * calculate_investment_maturity data.investments data.assets +
          (5/100) * calculate_behavioral_score data +
          (10/100) * data.risk_tolerance) * 100)) ∧
    List.lookup "Age Factor" (calculate_comprehensive_risk_score data).2 =
      some (calculate_age_factor data.age * 100) ∧
    List.lookup "Income Stability" (calculate_comprehensive_risk_score data).2 =
      some (calculate_income_stability data.salary data.city_index * 100) ∧
    List.lookup "Net Worth Ratio" (calculate_comprehensive_risk_score data).2 =
      some (calculate_net_worth_ratio data.assets data.liabilities data.salary * 100) ∧
    List.lookup "Debt Management" (calculate_comprehensive_risk_score data).2 =
      some ((1 - calculate_debt_burden data.emi data.liabilities data.salary) * 100) ∧
    List.lookup "Liquidity Position" (calculate_comprehensive_risk_score data).2 =
      some (calculate_liquidity_score data.savings data.monthly_expenses * 100) ∧
    List.lookup "Credit Health" (calculate_comprehensive_risk_score data).2 =
      some (calculate_credit_health data.credit_score data.defaulted * 100) ∧
    List.lookup "Investment Maturity" (calculate_comprehensive_risk_score data).2 =
      some (calculate_investment_maturity data.investments data.assets * 100) ∧
    List.lookup "Financial Behavior" (calculate_comprehensive_risk_score data).2 =
      some (calculate_behavioral_score data * 100) ∧
    List.lookup "Risk Tolerance" (calculate_comprehensive_risk_score data).2 =
      some (data.risk_tolerance * 100) := by
  unfold calculate_comprehensive_risk_score
  refine ⟨?_, ?_, ?_, ?_, ?_, ?_, ?_, ?_, ?_, ?_⟩
  · dsimp only
    congr 2
    ring
  all_goals rfl

lemma bandRank_interpret (s : ℚ) :
    bandRank (interpret_risk_profile s) =
      if 80 ≤ s then 4 else if 65 ≤ s then 3 else if 45 ≤ s then 2
      else if 25 ≤ s then 1 else 0 := by
  unfold interpret_risk_profile
  split_ifs <;> rfl

/-- C3: the classifier returns the five static bands at exactly the
thresholds 80, 65, 45 and 25, and its band rank is monotone in the
score. -/
theorem c3_classifier_bands_monotone (s s1 s2 : ℚ)
    (h0 : 0 ≤ s) (h100 : s ≤ 100) (h12 : s1 ≤ s2) :
    (80 ≤ s → (interpret_risk_profile s).profile = "Aggressive Investor") ∧
    (65 ≤ s → s < 80 → (interpret_risk_profile s).profile = "Growth Investor") ∧
    (45 ≤ s → s < 65 → (interpret_risk_profile s).profile = "Balanced Investor") ∧
    (25 ≤ s → s < 45 → (interpret_risk_profile s).profile = "Conservative Investor") ∧
    (s < 25 → (interpret_risk_profile s).profile = "Capital Preservation") ∧
    bandRank (interpret_risk_profile s1) ≤ bandRank (interpret_risk_profile s2) := by
  refine ⟨?_, ?_, ?_, ?_, ?_, ?_⟩
  · intro h
    unfold interpret_risk_profile
    rw [if_pos h]
    rfl
  · intro h hlt
    unfold interpret_risk_profile
    rw [if_neg (by linarith), if_pos h]
    rfl
  · intro h hlt
    unfold interpret_risk_profile
    rw [if_neg (by linarith), if_neg (by linarith), if_pos h]
    rfl
  · intro h hlt
    unfold interpret_risk_profile
    rw [if_neg (by linarith), if_neg (by linarith), if_neg (by linarith),
      if_pos h]
    rfl
  · intro h
    unfold interpret_risk_profile
    rw [if_neg (by linarith), if_neg (by linarith), if_neg (by linarith),
      if_neg (by linarith)]
    rfl
  · rw [bandRank_interpret, bandRank_interpret]
    split_ifs <;> push_neg at * <;> first | omega | linarith

/-- Witness for C3 at the boundary score 80 and the pair 10 ≤ 90. -/
theorem c3_witness :
    (interpret_risk_profile 80).profile = "Aggressive Investor" ∧
    bandRank (interpret_risk_profile 10) ≤ bandRank (interpret_risk_profile 90) :=
  ⟨(c3_classifier_bands_monotone 80 10 90 (by norm_num) (by norm_num)
      (by norm_num)).1 (by norm_num),
   (c3_classifier_bands_monotone 80 10 90 (by norm_num) (by norm_num)
      (by norm_num)).2.2.2.2.2⟩

/-- C4: zero denominators are defined inputs: a zero salary forces
income stability 0, net worth ratio 0, debt burden 1 and all four
salary-denominated ratios 0; zero assets force investment maturity 0 and
asset utilization 0; zero monthly expenses force the neutral liquidity
score 1/2 and zero emergency-fund months.  Every function involved is
total, so no input raises an error. -/
theorem c4_zero_denominator_guards (data : FinancialProfile) :
    (data.salary = 0 →
      calculate_income_stability data.salary data.city_index = 0 ∧
      calculate_net_worth_ratio data.assets data.liabilities data.salary = 0 ∧
      calculate_debt_burden data.emi data.liabilities data.salary = 1 ∧
      (calculate_key_ratios data).debt_to_income = 0 ∧
      (calculate_key_ratios data).savings_rate = 0 ∧
      (calculate_key_ratios data).investment_rate = 0 ∧
      (calculate_key_ratios data).expense_ratio = 0) ∧
    (data.assets = 0 →
      calculate_investment_maturity data.investments data.assets = 0 ∧
      (calculate_key_ratios data).asset_utilization = 0) ∧
    (data.monthly_expenses = 0 →
      calculate_liquidity_score data.savings data.monthly_expenses = 5/10 ∧
      (calculate_key_ratios data).emergency_fund_months = 0) := by
  refine ⟨fun h => ?_, fun h => ?_, fun h => ?_⟩
  · refine ⟨?_, ?_, ?_, ?_, ?_, ?_, ?_⟩
    · unfold calculate_income_stability
      rw [h]
      split_ifs <;> norm_num
    · unfold calculate_net_worth_ratio
      rw [if_pos h]
    · unfold calculate_debt_burden
      rw [if_pos h]
    all_goals
      unfold calculate_key_ratios
      rw [h]
      norm_num
  · refine ⟨?_, ?_⟩
    · unfold calculate_investment_maturity
      rw [if_pos h]
    · unfold calculate_key_ratios
      rw [h]
      norm_num
  · refine ⟨?_, ?_⟩
    · unfold calculate_liquidity_score
      rw [if_pos h]
    · unfold calculate_key_ratios
      rw [h]
      norm_num

/-- Witness for C4 at a profile whose salary, assets and monthly
expenses are all zero. -/
theorem c4_witness :
    (calculate_key_ratios zeroProfile).debt_to_income = 0 ∧
    calculate_debt_burden zeroProfile.emi zeroProfile.liabilities
      zeroProfile.salary = 1 ∧
    calculate_liquidity_score zeroProfile.savings
      zeroProfile.monthly_expenses = 5/10 ∧
    (calculate_key_ratios zeroProfile).asset_utilization = 0 :=
  ⟨((c4_zero_denominator_guards zeroProfile).1 rfl).2.2.2.1,
   ((c4_zero_denominator_guards zeroProfile).1 rfl).2.2.1,
   ((c4_zero_denominator_guards zeroProfile).2.2 rfl).1,
   ((c4_zero_denominator_guards zeroProfile).2.1 rfl).2⟩

/-- C5: the age factor is the exact five-step staircase with breakpoints
25, 35, 45 and 55, and is non-increasing in age. -/
theorem c5_age_factor_staircase (age a1 a2 : ℤ) (h : a1 ≤ a2) :
    (age < 25 → calculate_age_factor age = 9/10) ∧
    (25 ≤ age → age < 35 → calculate_age_factor age = 8/10) ∧
    (35 ≤ age → age < 45 → calculate_age_factor age = 6/10) ∧
    (45 ≤ age → age < 55 → calculate_age_factor age = 4/10) ∧
    (55 ≤ age → calculate_age_factor age = 2/10) ∧
    calculate_age_factor a2 ≤ calculate_age_factor a1 := by
  unfold calculate_age_factor
  refine ⟨fun h1 => ?_, fun h1 h2 => ?_, fun h1 h2 => ?_, fun h1 h2 => ?_,
    fun h1 => ?_, ?_⟩ <;>
    split_ifs <;> first | rfl | omega | norm_num

/-- Witness for C5: age 30 sits on the second step and the factor at 60
is at most the factor at 20. -/
theorem c5_witness :
    calculate_age_factor 30 = 8/10 ∧
    calculate_age_factor 60 ≤ calculate_age_factor 20 :=
  ⟨(c5_age_factor_staircase 30 20 60 (by norm_num)).2.1 (by norm_num)
      (by norm_num),
   (c5_age_factor_staircase 30 20 60 (by norm_num)).2.2.2.2.2⟩

/-- C6: the action plan is the conditional items in the fixed generation
order followed by the two unconditional items, truncated to the first 6,
so its length never exceeds 6; when at least 5 conditional rules fire
the trailing unconditional item is dropped, and when all 6 fire both
unconditional items are dropped. -/
theorem c6_action_plan_order_truncation (data : FinancialProfile)
    (ratios : Ratios) (risk_score : ℚ) :
    generate_action_plan data ratios risk_score =
      ((if ratios.emergency_fund_months < 3 then [actOpenSavings] else []) ++
       (if ¬ data.budget then [actTrackExpenses] else []) ++
       (if data.insurance = "None" then [actResearchInsurance] else []) ++
       (if data.credit_score < 650 then [actCreditReport] else []) ++
       (if ¬ data.automate then [actAutomate] else []) ++
       (if (4/10) < ratios.debt_to_income then [actDebtPlan] else []) ++
       [actReviewPortfolio, actScheduleReview]).take 6 ∧
    (generate_action_plan data ratios risk_score).length ≤ 6 ∧
    (5 ≤ firedActionRules data ratios →
      actScheduleReview ∉ generate_action_plan data ratios risk_score) ∧
    (6 ≤ firedActionRules data ratios →
      actReviewPortfolio ∉ generate_action_plan data ratios risk_score) := by
  refine ⟨rfl, ?_, ?_, ?_⟩
  · exact List.length_take_le 6 _
  · intro h
    by_cases h1 : ratios.emergency_fund_months < 3 <;>
    by_cases h2 : data.budget = true <;>
    by_cases h3 : data.insurance = "None" <;>
    by_cases h4 : data.credit_score < 650 <;>
    by_cases h5 : data.automate = true <;>
    by_cases h6 : (4/10 : ℚ) < ratios.debt_to_income <;>
    simp [generate_action_plan, actionItems, firedActionRules,
      h1, h2, h3, h4, h5, h6] at h ⊢ <;>
    decide
  · intro h
    by_cases h1 : ratios.emergency_fund_months < 3 <;>
    by_cases h2 : data.budget = true <;>
    by_cases h3 : data.insurance = "None" <;>
    by_cases h4 : data.credit_score < 650 <;>
    by_cases h5 : data.automate = true <;>
    by_cases h6 : (4/10 : ℚ) < ratios.debt_to_income <;>
    simp [generate_action_plan, actionItems, firedActionRules,
      h1, h2, h3, h4, h5, h6] at h ⊢ <;>
    decide

/-- Witness for C6: with all six conditional rules firing, both
unconditional items are dropped from the plan. -/
theorem c6_witness :
    actScheduleReview ∉ generate_action_plan fireAllProfile fireAllRatios 0 ∧
    actReviewPortfolio ∉ generate_action_plan fireAllProfile fireAllRatios 0 :=
  ⟨(c6_action_plan_order_truncation fireAllProfile fireAllRatios 0).2.2.1
      (by norm_num [firedActionRules, fireAllProfile, fireAllRatios]),
   (c6_action_plan_order_truncation fireAllProfile fireAllRatios 0).2.2.2
      (by norm_num [firedActionRules, fireAllProfile, fireAllRatios])⟩

/-- C7: on the end-to-end example profile the pipeline yields
emergency-fund months 200000/30000, debt-to-income 15000/1200000, a
start-retirement-planning recommendation, and no critical-debt
warning. -/
theorem c7_end_to_end_example :
    (calculate_key_ratios exampleProfile).emergency_fund_months =
      200000/30000 ∧
    (calculate_key_ratios exampleProfile).debt_to_income =
      15000/1200000 ∧
    Recommendation.startRetirementPlanning ∈
      generate_recommendations exampleProfile
        (calculate_comprehensive_risk_score exampleProfile).1
        (calculate_key_ratios exampleProfile) ∧
    Warning.criticalDebt ∉
      generate_warnings exampleProfile (calculate_key_ratios exampleProfile) := by
  refine ⟨?_, ?_, ?_, ?_⟩
  · norm_num [calculate_key_ratios, exampleProfile]
  · norm_num [calculate_key_ratios, exampleProfile]
  · norm_num [generate_recommendations, calculate_key_ratios,
      calculate_comprehensive_risk_score, calculate_age_factor,
      calculate_income_stability, calculate_net_worth_ratio,
      calculate_debt_burden, calculate_liquidity_score,
      calculate_credit_health, calculate_investment_maturity,
      calculate_behavioral_score, exampleProfile]
  · norm_num [generate_warnings, calculate_key_ratios, exampleProfile]

/-- C8: the pipeline is deterministic and stateless: the report does not
depend on the analyzer-instance state, the state is returned unchanged,
and a second call on the state left by a first call yields the identical
report. -/
theorem c8_stateless_deterministic (st st1 st2 : AnalyzerState)
    (clock : String) (data : FinancialProfile) :
    (get_full_report_data_stateful st1 clock data).1 =
      (get_full_report_data_stateful st2 clock data).1 ∧
    (get_full_report_data_stateful st clock data).2 = st ∧
    (get_full_report_data_stateful
        (get_full_report_data_stateful st clock data).2 clock data).1 =
      (get_full_report_data_stateful st clock data).1 :=
  ⟨rfl, rfl, rfl⟩

/-- C9: for non-negative amounts the currency formatter divides by ten
million to two decimals with a Cr suffix, else by one lakh to two
decimals with an L suffix, else comma-groups the integer, always behind
the fixed currency symbol; with the three concrete renderings of the
specification. -/
theorem c9_format_currency_branches (a : ℚ) (h : 0 ≤ a) :
    (10000000 ≤ a →
      format_currency a = "₹" ++ twoDec (a / 10000000) ++ " Cr") ∧
    (100000 ≤ a → a < 10000000 →
      format_currency a = "₹" ++ twoDec (a / 100000) ++ " L") ∧
    (a < 100000 → format_currency a = "₹" ++ intComma a) ∧
    format_currency 12500000 = "₹1.25 Cr" ∧
    format_currency 250000 = "₹2.50 L" ∧
    format_currency 5000 = "₹5,000" := by
  refine ⟨fun h1 => ?_, fun h1 h2 => ?_, fun h1 => ?_, ?_, ?_, ?_⟩
  · unfold format_currency
    rw [if_pos h1]
  · unfold format_currency
    rw [if_neg (by linarith), if_pos h1]
  · unfold format_currency
    rw [if_neg (by linarith), if_neg (by linarith)]
  · norm_num [format_currency, twoDec, roundHalfEven, pad2]
    rfl
  · norm_num [format_currency, twoDec, roundHalfEven, pad2]
    rfl
  · norm_num [format_currency, intComma, roundHalfEven, commaGroup,
      commaGroupAux]
    rfl

/-- Witness for C9 at the amount 12500000. -/
theorem c9_witness : format_currency 12500000 = "₹1.25 Cr" :=
  (c9_format_currency_branches 12500000 (by norm_num)).2.2.2.1

/-- C10: in the formatted ratio table the three keys containing rate or
ratio render as one-decimal percentage strings, emergency-fund months
renders as a months string, net worth goes through the currency
formatter, while debt-to-income and asset-utilization pass through as
raw numbers because their key names contain none of the selector
substrings. -/
theorem c10_ratio_rendering_selection (r : Ratios) :
    List.lookup "savings_rate" (formattedRatios r) =
      some (FormattedValue.fstr (percent1 r.savings_rate)) ∧
    List.lookup "investment_rate" (formattedRatios r) =
      some (FormattedValue.fstr (percent1 r.investment_rate)) ∧
    List.lookup "expense_ratio" (formattedRatios r) =
      some (FormattedValue.fstr (percent1 r.expense_ratio)) ∧
    List.lookup "emergency_fund_months" (formattedRatios r) =
      some (FormattedValue.fstr (oneDec r.emergency_fund_months ++ " months")) ∧
    List.lookup "net_worth" (formattedRatios r) =
      some (FormattedValue.fstr (format_currency r.net_worth)) ∧
    List.lookup "debt_to_income" (formattedRatios r) =
      some (FormattedValue.fnum r.debt_to_income) ∧
    List.lookup "asset_utilization" (formattedRatios r) =
      some (FormattedValue.fnum r.asset_utilization) ∧
    containsSub "debt_to_income" "rate" = false ∧
    containsSub "debt_to_income" "ratio" = false ∧
    containsSub "debt_to_income" "worth" = false ∧
    containsSub "asset_utilization" "rate" = false ∧
    containsSub "asset_utilization" "ratio" = false ∧
    containsSub "asset_utilization" "worth" = false := by
  refine ⟨?_, ?_, ?_, ?_, ?_, ?_, ?_, ?_, ?_, ?_, ?_, ?_, ?_⟩ <;> rfl
